import Mathlib

/-!
Verification of the Meteoflux incremental synchronization engine and process
supervisor (meteoflux.py, meteoconfig.py) against its specification.  The
Python source is embedded shallowly: pure computations become Lean functions,
external effects (file contents, write transport, process liveness, the wall
clock) become explicit environment inputs, and a raised exception becomes an
Except error value.
-/

namespace Meteoflux

/-- Poll interval in seconds (meteoconfig.timer). -/
def timer : Nat := 30

/-- Error-backoff interval in seconds (meteoconfig.error_timer). -/
def error_timer : Nat := 120

/-- Stall duration in seconds (meteoconfig.kill_timer). -/
def kill_timer : Nat := 180

/-- Maximum wait in seconds for process termination (meteoconfig.wait_for_kill). -/
def wait_for_kill : Nat := 20

/-- Encoding of a local calendar timestamp (year, month, day, hour, minute) as
one natural number.  The encoding is strictly monotone in the lexicographic
field order on the field ranges accepted by strptime (month 1..12 < 13, day
1..31 < 32, hour < 24, minute < 60), and Python datetime comparison between
values carrying the same tzinfo is exactly that lexicographic order. -/
def dtCode (y mo d h mi : Nat) : Nat :=
  (((y * 13 + mo) * 32 + d) * 24 + h) * 60 + mi

/-- Splitting of a character list at every occurrence of a separator, the
char-level counterpart of Python str.split on a one-character separator.
Always returns at least one group. -/
def splitOnChar (c : Char) : List Char → List (List Char)
  | [] => [[]]
  | x :: xs =>
    match splitOnChar c xs with
    | [] => [[]]
    | g :: gs => if x = c then [] :: g :: gs else (x :: g) :: gs

/-- Accumulator pass of decimal digit evaluation; fails on a non-digit. -/
def digitsValAux : Nat → List Char → Option Nat
  | acc, [] => some acc
  | acc, ch :: cs =>
    if ch.isDigit then digitsValAux (acc * 10 + (ch.toNat - 48)) cs else none

/-- Digits-only numeric field of bounded width, as matched by one strptime
numeric directive (at least one digit, at most maxLen digits). -/
def parseNatField (l : List Char) (maxLen : Nat) : Option Nat :=
  if l.length = 0 ∨ maxLen < l.length then none else digitsValAux 0 l

/-- Model of datetime.strptime with format "%Y-%m-%d %H:%M" followed by
attaching the configured local zone (meteoflux.py lines 96 and 113): returns
the encoded local timestamp, or none when the input does not match the format
(strptime raises ValueError). -/
def strptimeYmdHm (s : String) : Option Nat :=
  match splitOnChar ' ' s.data with
  | [d, t] =>
    match splitOnChar '-' d, splitOnChar ':' t with
    | [ys, mos, ds], [hs, mis] =>
      match parseNatField ys 4, parseNatField mos 2, parseNatField ds 2,
            parseNatField hs 2, parseNatField mis 2 with
      | some y, some mo, some da, some h, some mi =>
        if 1 ≤ y ∧ 1 ≤ mo ∧ mo ≤ 12 ∧ 1 ≤ da ∧ da ≤ 31 ∧ h ≤ 23 ∧ mi ≤ 59 then
          some (dtCode y mo da h mi)
        else none
      | _, _, _, _, _ => none
    | _, _ => none
  | _ => none

/-- Encoded datetime.min with the local zone attached (line 184): year 1,
January 1, 00:00. -/
def datetime_min_code : Nat := dtCode 1 1 1 0 0

/-- Raw cell value of a DBF row as delivered by dbfread: a numeric field
value, a character field value, or None for an empty field. -/
inductive RawValue where
  | num (q : Int)
  | text (s : String)
  | nil
deriving DecidableEq, Repr

/-- Rendering of a raw value inside the combined date-time f-string. -/
def RawValue.pyStr : RawValue → String
  | RawValue.num q => toString q
  | RawValue.text s => s
  | RawValue.nil => "None"

/-- Model of the builtin float() coercion applied to a raw value (line 95):
numeric values coerce, None raises TypeError.  Character values are modelled
as non-coercible; the mapped sensor columns are numeric DBF fields, so in the
program float() only ever sees numbers or None there. -/
def pyFloat : RawValue → Option Int
  | RawValue.num q => some q
  | RawValue.text _ => none
  | RawValue.nil => none

/-- One DBF row: an ordered mapping from column name to raw value. -/
abbrev Row := List (String × RawValue)

/-- Parsed local timestamp of a row, from its DAT and CAS columns, as computed
by datetime.strptime on the combined string (lines 96 and 113): none when a
column is missing (KeyError) or the string does not parse (ValueError). -/
def rowTime (r : Row) : Option Nat :=
  match r.lookup ("DAT"), r.lookup ("CAS") with
  | some d, some c => strptimeYmdHm (d.pyStr ++ (" ") ++ c.pyStr)
  | _, _ => none

/-- System columns skipped by write_to_influxdb (line 52). -/
def system_columns : List String :=
  ["DAT", "CAS", "EX", "RESETCNT", "RESETTYP", "_NullFlags"]

/-- Currently unused sensor columns skipped by write_to_influxdb
(lines 54-56). -/
def unused_columns : List String :=
  ["PWD_ERR", "PWD_V01", "PWD_V10", "PWD_P01", "PWD_P15",
   "PWD_WI", "PWD_WS", "PWD_SS", "PWD_T", "PWD_BL"]

/-- Outcome of classifying one column name. -/
inductive MapOutcome where
  | ignored
  | mapped (name : String)
  | unknown
deriving DecidableEq, Repr

/-- Column-name classification performed by the match statement of
write_to_influxdb (lines 51-93).  A Python match over string literals is a
sequence of equality tests, rendered here as an if chain in source order; the
two skip groups are the literal alternation patterns of lines 52 and 54-55. -/
def mapColumn (key : String) : MapOutcome :=
  if key ∈ system_columns then MapOutcome.ignored
  else if key ∈ unused_columns then MapOutcome.ignored
  else if key = "VLVZD" then MapOutcome.mapped ("humi")
  else if key = "TEP2M" then MapOutcome.mapped ("temp")
  else if key = "TEP2M_I" then MapOutcome.mapped ("temp_min")
  else if key = "TEP2M_X" then MapOutcome.mapped ("temp_max")
  else if key = "TLAK" then MapOutcome.mapped ("press")
  else if key = "TLAK_M" then MapOutcome.mapped ("press_sea")
  else if key = "SRAZKY" then MapOutcome.mapped ("rain")
  else if key = "RYCHV" then MapOutcome.mapped ("wind_speed")
  else if key = "SMERV" then MapOutcome.mapped ("wind_dir")
  else if key = "RYCHV_P" then MapOutcome.mapped ("wind_speed_avg")
  else if key = "SMERV_P" then MapOutcome.mapped ("wind_dir_avg")
  else if key = "RYCHV_X" then MapOutcome.mapped ("wind_speed_max")
  else if key = "SMERV_X" then MapOutcome.mapped ("wind_dir_max")
  else if key = "CASV_X" then MapOutcome.mapped ("wind_time_max")
  else if key = "NABAT_E" then MapOutcome.mapped ("volt_exp")
  else if key = "NABAT" then MapOutcome.mapped ("volt")
  else if key = "NABAT_I" then MapOutcome.mapped ("volt_min")
  else MapOutcome.unknown

/-- Documented translation table of the mapper, as data, for stating the
mapper claims against mapColumn. -/
def column_translation : List (String × String) :=
  [("VLVZD", "humi"), ("TEP2M", "temp"), ("TEP2M_I", "temp_min"),
   ("TEP2M_X", "temp_max"), ("TLAK", "press"), ("TLAK_M", "press_sea"),
   ("SRAZKY", "rain"), ("RYCHV", "wind_speed"), ("SMERV", "wind_dir"),
   ("RYCHV_P", "wind_speed_avg"), ("SMERV_P", "wind_dir_avg"),
   ("RYCHV_X", "wind_speed_max"), ("SMERV_X", "wind_dir_max"),
   ("CASV_X", "wind_time_max"), ("NABAT_E", "volt_exp"),
   ("NABAT", "volt"), ("NABAT_I", "volt_min")]

/-- Sink point: canonical field mapping plus an encoded timestamp. -/
structure Point where
  fields : List (String × Int)
  time : Nat
deriving DecidableEq, Repr

/-- Field loop of write_to_influxdb over one row (lines 50-95): classify each
column in order; ignored and unknown columns are skipped (unknown also logs);
a mapped column coerces its value with float(), whose failure raises out of
the whole call. -/
def pointFields : List (String × RawValue) → Except Unit (List (String × Int))
  | [] => Except.ok []
  | (k, v) :: rest =>
    match mapColumn k with
    | MapOutcome.ignored => pointFields rest
    | MapOutcome.unknown => pointFields rest
    | MapOutcome.mapped name =>
      match pyFloat v with
      | none => Except.error ()
      | some q =>
        match pointFields rest with
        | Except.error e => Except.error e
        | Except.ok fs => Except.ok ((name, q) :: fs)

/-- One iteration of the row loop of write_to_influxdb (lines 48-98): build
the field set, then parse the row timestamp (lines 96-97); either failure
raises. -/
def buildPoint (r : Row) : Except Unit Point :=
  match pointFields r with
  | Except.error e => Except.error e
  | Except.ok fs =>
    match rowTime r with
    | none => Except.error ()
    | some t => Except.ok { fields := fs, time := t }

/-- Row loop of write_to_influxdb over the whole batch. -/
def buildPoints : List Row → Except Unit (List Point)
  | [] => Except.ok []
  | r :: rs =>
    match buildPoint r with
    | Except.error e => Except.error e
    | Except.ok p =>
      match buildPoints rs with
      | Except.error e => Except.error e
      | Except.ok ps => Except.ok (p :: ps)

/-- write_to_influxdb (lines 38-101): parse the whole batch into points, then
perform one batched write, whose transport outcome is an environment input. -/
def write_to_influxdb (transport_ok : Bool) (data : List Row) :
    Except Unit (List Point) :=
  match buildPoints data with
  | Except.error e => Except.error e
  | Except.ok pts => if transport_ok then Except.ok pts else Except.error ()

/-- Boolean success test for a batch write outcome. -/
def exceptOk : Except Unit (List Point) → Bool
  | Except.ok _ => true
  | Except.error _ => false

/-- Row filter predicate of read_new_rows_from_dbf: the parsed timestamp is
strictly greater than the watermark. -/
def newRowB (w : Nat) (r : Row) : Bool :=
  match rowTime r with
  | some t => w < t
  | none => false

/-- read_new_rows_from_dbf (lines 104-116): parse each row's timestamp in file
order, raising on a malformed one, and keep the rows strictly newer than
last_timestamp.  The loaded file contents stand in for the DBF table. -/
def read_new_rows_from_dbf : List Row → Nat → Except Unit (List Row)
  | [], _ => Except.ok []
  | r :: rs, w =>
    match rowTime r with
    | none => Except.error ()
    | some t =>
      match read_new_rows_from_dbf rs w with
      | Except.error e => Except.error e
      | Except.ok rest => Except.ok (if w < t then r :: rest else rest)

/-- Observable calls of one scheduler cycle and of startup. -/
inductive Event where
  | readCall
  | writeCall
  | terminateCall
  | ensureCall
  | spawned
  | connectAttempt
deriving DecidableEq, Repr

/-- start_winmeteo_if_not_running (lines 119-129): the call itself, plus the
spawn when no live process matches the name. -/
def start_winmeteo_if_not_running (running : Bool) : List Event :=
  if running then [Event.ensureCall] else [Event.ensureCall, Event.spawned]

/-- Liveness polling loop of kill_winmeteo (lines 152-163): check existence at
one-second intervals, raising once the elapsed time exceeds the limit.  The
check at poll k sees k elapsed seconds; the fuel starts at limit + 2, which
the loop can never exhaust (at poll limit + 1 it either breaks or raises). -/
def killPoll (alive : Nat → Bool) (limit : Nat) : Nat → Nat → Except Unit Unit
  | 0, _ => Except.error ()
  | fuel + 1, k =>
    if alive k = false then Except.ok ()
    else if limit < k then Except.error ()
    else killPoll alive limit fuel (k + 1)

/-- kill_winmeteo (lines 132-163): return at once when the process is absent;
print and return when the taskkill command itself fails (CalledProcessError);
otherwise poll liveness until the process disappears or the time limit is
exceeded, which raises OSError. -/
def kill_winmeteo (process_exists cmd_ok : Bool) (alive : Nat → Bool)
    (kill_time_limit : Nat) : Except Unit Unit :=
  if process_exists then
    if cmd_ok then killPoll alive kill_time_limit (kill_time_limit + 2) 0
    else Except.ok ()
  else Except.ok ()

/-- Mutable state of main's loop (lines 193-197): iteration, consecutive
empty, and restart counters, the last (re)start timestamp, and the watermark
last_timestamp. -/
structure SchedState where
  iterations : Nat
  zeros : Nat
  restarts : Nat
  lastRestart : Nat
  watermark : Nat
deriving DecidableEq, Repr

/-- External world of one cycle: the loaded DBF contents (none models a raise
while reading the file), the write transport outcome, the process liveness
answers, the taskkill command outcome, and the wall clock datetime.now(). -/
structure CycleEnv where
  table : Option (List Row)
  writeOk : Bool
  procExists : Bool
  killCmdOk : Bool
  alive : Nat → Bool
  runningAtStart : Bool
  now : Nat

/-- Result of one cycle: the successor state, the trace of observable calls,
and whether an exception was caught by the error-backoff wrapper (line 228),
in which case the backoff sleep follows instead of the normal sleep. -/
structure CycleResult where
  state : SchedState
  trace : List Event
  errored : Bool
deriving DecidableEq, Repr

/-- Watermark advancement expression of main (lines 211-214): the maximum of
the parsed timestamps of the written rows.  In the program every written row
re-parses successfully because read_new_rows_from_dbf already parsed it. -/
def batchMax (rows : List Row) : Nat :=
  (rows.filterMap rowTime).foldl max 0

/-- Trace bookkeeping: the events of the enclosing block precede the events of
an inner block. -/
def prependEvents (evs : List Event) (r : CycleResult) : CycleResult :=
  { r with trace := evs ++ r.trace }

/-- Continuation of the restart block after the kill_winmeteo call (lines
223-227), by its outcome: a raise leaves the counters untouched and aborts the
cycle; success starts the process again, counts the restart, records the wall
clock and resets the empty counter. -/
def afterKill (env : CycleEnv) (s : SchedState) : Except Unit Unit → CycleResult
  | Except.error _ => { state := s, trace := [Event.terminateCall], errored := true }
  | Except.ok _ =>
    { state := { s with restarts := s.restarts + 1, lastRestart := env.now, zeros := 0 },
      trace := Event.terminateCall :: start_winmeteo_if_not_running env.runningAtStart,
      errored := false }

/-- Conditional restart block of main (lines 221-227). -/
def restartStep (mz kl : Nat) (env : CycleEnv) (s : SchedState) : CycleResult :=
  if mz ≤ s.zeros then
    afterKill env s (kill_winmeteo env.procExists env.killCmdOk env.alive kl)
  else { state := s, trace := [], errored := false }

/-- Continuation of the cycle after the batch write call (lines 210-227), by
its outcome: a raise aborts the cycle before the watermark assignment; success
advances the watermark to the batch maximum, resets the empty counter and
falls through to the restart check. -/
def afterWrite (mz kl : Nat) (env : CycleEnv) (s : SchedState) (newRows : List Row) :
    Except Unit (List Point) → CycleResult
  | Except.error _ =>
    { state := { s with iterations := s.iterations + 1 },
      trace := [Event.readCall, Event.writeCall], errored := true }
  | Except.ok _ =>
    prependEvents [Event.readCall, Event.writeCall]
      (restartStep mz kl env
        { s with iterations := s.iterations + 1,
                 watermark := batchMax newRows, zeros := 0 })

/-- Continuation of the cycle after the read call (lines 206-227), by its
outcome: a raise aborts the cycle; an empty batch increments the empty counter
and falls through to the restart check; a non-empty batch is written. -/
def afterRead (mz kl : Nat) (env : CycleEnv) (s : SchedState) :
    Except Unit (List Row) → CycleResult
  | Except.error _ =>
    { state := { s with iterations := s.iterations + 1 },
      trace := [Event.readCall], errored := true }
  | Except.ok newRows =>
    if newRows.isEmpty then
      prependEvents [Event.readCall]
        (restartStep mz kl env
          { s with iterations := s.iterations + 1, zeros := s.zeros + 1 })
    else
      afterWrite mz kl env s newRows (write_to_influxdb env.writeOk newRows)

/-- Dispatch of the cycle on the availability of the DBF contents: none models
a raise inside the read call itself. -/
def cycleTable (mz kl : Nat) (env : CycleEnv) (s : SchedState) :
    Option (List Row) → CycleResult
  | none =>
    { state := { s with iterations := s.iterations + 1 },
      trace := [Event.readCall], errored := true }
  | some tbl => afterRead mz kl env s (read_new_rows_from_dbf tbl s.watermark)

/-- One iteration of main's cycle (lines 200-234) together with its try/except
wrapper: a raise at any step keeps the mutations already performed and marks
the cycle errored, otherwise the normal sleep follows. -/
def cycle (mz kl : Nat) (env : CycleEnv) (s : SchedState) : CycleResult :=
  cycleTable mz kl env s env.table

/-- Threshold of consecutive empty polls before a restart (line 197): Python
floor division of the configured durations. -/
def max_zeros : Nat := kill_timer / timer

/-- One cycle with the configured threshold and kill wait, as run by main. -/
def mainCycle (env : CycleEnv) (s : SchedState) : CycleResult :=
  cycle max_zeros wait_for_kill env s

/-- Repeated cycles (the while True loop), driven by a list of per-cycle
environments. -/
def run (mz kl : Nat) : List CycleEnv → SchedState → SchedState
  | [], s => s
  | env :: envs, s => run mz kl envs (cycle mz kl env s).state

/-- Connect phase of main (lines 178-191), driven by the outcome of each
attempt: none models a raise while connecting or querying, some w a success
with get_last_timestamp returning w (itself none when the sink holds no data,
in which case the datetime.min sentinel is substituted by the or-expression of
line 184).  Returns the connect events and the seeded watermark, the latter
none while every attempt so far has failed and the loop is still retrying. -/
def connectPhase : List (Option (Option Nat)) → List Event × Option Nat
  | [] => ([], none)
  | attempt :: rest =>
    match attempt with
    | some w => ([Event.connectAttempt], some (w.getD datetime_min_code))
    | none =>
      let r := connectPhase rest
      (Event.connectAttempt :: r.1, r.2)

/-- Startup sequence of main (lines 166-191): one ensureRunning call, then the
connect phase. -/
def mainStartup (running : Bool) (attempts : List (Option (Option Nat))) :
    List Event × Option Nat :=
  let startEvents := start_winmeteo_if_not_running running
  let c := connectPhase attempts
  (startEvents ++ c.1, c.2)

/-- Sample DBF row with a date, a time and one temperature reading. -/
def mkRow (dat cas : String) (v : Int) : Row :=
  [("DAT", RawValue.text dat), ("CAS", RawValue.text cas), ("TEP2M", RawValue.num v)]

/-- Sample row timestamped 2024-01-01 10:00. -/
def row1000 : Row := mkRow ("2024-01-01") ("10:00") 3

/-- Sample row timestamped 2024-01-01 10:15. -/
def row1015 : Row := mkRow ("2024-01-01") ("10:15") 5

/-- Sample row timestamped 2024-01-01 10:05. -/
def row1005 : Row := mkRow ("2024-01-01") ("10:05") 4

/-- Sample row timestamped 2024-01-01 09:00. -/
def row0900 : Row := mkRow ("2024-01-01") ("09:00") 1

/-- Sample row whose mapped TEP2M field carries None, so float() raises. -/
def rowBadField : Row :=
  [("DAT", RawValue.text ("2024-01-05")), ("CAS", RawValue.text ("10:05")),
   ("TEP2M", RawValue.nil), ("VLVZD", RawValue.num 50)]

/-- Sample file contents with timestamps out of order: 10:00, 10:15, 10:05. -/
def tblOutOfOrder : List Row := [row1000, row1015, row1005]

/-- Sample file contents with one row at or below a 09:30 watermark. -/
def tblMixed : List Row := [row1000, row0900, row1015]

/-- Initial loop state with a zero watermark (below every parsed timestamp). -/
def state0 : SchedState :=
  { iterations := 0, zeros := 0, restarts := 0, lastRestart := 0, watermark := 0 }

/-- Loop state three empty polls into a stall. -/
def stateZ3 : SchedState := { state0 with zeros := 3 }

/-- Loop state five empty polls into a stall (one poll short of the shipped
threshold of six). -/
def stateZ5 : SchedState := { state0 with zeros := 5 }

/-- Environment for a cycle that reads the out-of-order table and whose write
transport succeeds. -/
def envWrite : CycleEnv :=
  { table := some tblOutOfOrder, writeOk := true, procExists := true,
    killCmdOk := true, alive := fun _ => false, runningAtStart := true, now := 50 }

/-- Same as envWrite but the write transport raises. -/
def envWriteFail : CycleEnv := { envWrite with writeOk := false }

/-- Environment for an empty poll where a requested kill succeeds at once. -/
def envEmptyKillOk : CycleEnv :=
  { table := some [], writeOk := true, procExists := true, killCmdOk := true,
    alive := fun _ => false, runningAtStart := true, now := 77 }

/-- Environment for an empty poll where the process never disappears, so a
requested kill times out. -/
def envEmptyKillTimeout : CycleEnv :=
  { envEmptyKillOk with alive := fun _ => true, now := 88 }

/-- Environment for an empty poll where the taskkill command itself fails and
the process stays alive. -/
def envEmptyCmdFail : CycleEnv :=
  { envEmptyKillOk with killCmdOk := false, now := 99 }

/-- Environment for a cycle whose batch contains the non-coercible row. -/
def envBadBatch : CycleEnv :=
  { envWrite with table := some [row1000, rowBadField] }

theorem foldl_max_init_le (l : List Nat) (i : Nat) : i ≤ l.foldl max i := by
  induction l generalizing i with
  | nil => exact Nat.le_refl i
  | cons a t ih => exact Nat.le_trans (Nat.le_max_left i a) (ih (max i a))

theorem le_foldl_max (l : List Nat) (i a : Nat) : a ∈ l → a ≤ l.foldl max i := by
  induction l generalizing i with
  | nil => intro h; cases h
  | cons b t ih =>
    intro h
    rcases List.mem_cons.mp h with hab | hm
    · subst hab
      exact Nat.le_trans (Nat.le_max_right i a) (foldl_max_init_le t (max i a))
    · exact ih (max i b) hm

theorem foldl_max_mem (l : List Nat) (i : Nat) : l.foldl max i ∈ i :: l := by
  induction l generalizing i with
  | nil => exact List.mem_singleton.mpr rfl
  | cons a t ih =>
    have h := ih (max i a)
    show List.foldl max (max i a) t ∈ i :: a :: t
    rcases List.mem_cons.mp h with he | hm
    · rw [he]
      rcases max_choice i a with h2 | h2 <;> rw [h2]
      · exact List.mem_cons_self i (a :: t)
      · exact List.mem_cons_of_mem i (List.mem_cons_self a t)
    · exact List.mem_cons_of_mem i (List.mem_cons_of_mem a hm)

theorem foldl_max_perm {l₁ l₂ : List Nat} (h : List.Perm l₁ l₂) :
    l₁.foldl max 0 = l₂.foldl max 0 := by
  apply Nat.le_antisymm
  · rcases List.mem_cons.mp (foldl_max_mem l₁ 0) with h0 | hm
    · rw [h0]; exact Nat.zero_le _
    · exact le_foldl_max l₂ 0 _ (h.mem_iff.mp hm)
  · rcases List.mem_cons.mp (foldl_max_mem l₂ 0) with h0 | hm
    · rw [h0]; exact Nat.zero_le _
    · exact le_foldl_max l₁ 0 _ (h.symm.mem_iff.mp hm)

theorem read_ok_eq_filter :
    ∀ (tbl : List Row) (w : Nat) (rows : List Row),
      read_new_rows_from_dbf tbl w = Except.ok rows →
      rows = tbl.filter (newRowB w) := by
  intro tbl
  induction tbl with
  | nil =>
    intro w rows h
    simp only [read_new_rows_from_dbf, Except.ok.injEq] at h
    simp [h.symm]
  | cons r rs ih =>
    intro w rows h
    simp only [read_new_rows_from_dbf] at h
    cases ht : rowTime r with
    | none => rw [ht] at h; cases h
    | some t =>
      rw [ht] at h
      cases hrec : read_new_rows_from_dbf rs w with
      | error e => rw [hrec] at h; cases h
      | ok rest =>
        rw [hrec] at h
        have hrest := ih w rest hrec
        have hval : (if w < t then r :: rest else rest) = rows := by
          simpa using h
        have hp : newRowB w r = decide (w < t) := by simp [newRowB, ht]
        rw [← hval, List.filter_cons, hp, hrest]
        by_cases hlt : w < t <;> simp [hlt]

theorem read_ok_mem (tbl : List Row) (w : Nat) (rows : List Row)
    (h : read_new_rows_from_dbf tbl w = Except.ok rows) :
    ∀ r ∈ rows, ∃ t, rowTime r = some t ∧ w < t := by
  intro r hr
  rw [read_ok_eq_filter tbl w rows h] at hr
  have hp := (List.mem_filter.mp hr).2
  unfold newRowB at hp
  cases ht : rowTime r with
  | none => rw [ht] at hp; cases hp
  | some t => rw [ht] at hp; exact ⟨t, rfl, by simpa using hp⟩

theorem write_fails_of_transport (data : List Row) :
    write_to_influxdb false data = Except.error () := by
  unfold write_to_influxdb
  cases h : buildPoints data with
  | error e => cases e; rfl
  | ok pts => rfl

theorem restartStep_not_triggered (mz kl : Nat) (env : CycleEnv) (s : SchedState)
    (h : s.zeros < mz) :
    restartStep mz kl env s = { state := s, trace := [], errored := false } := by
  unfold restartStep
  rw [if_neg (by omega)]

theorem restartStep_kill_error (mz kl : Nat) (env : CycleEnv) (s : SchedState)
    (hz : mz ≤ s.zeros)
    (hk : kill_winmeteo env.procExists env.killCmdOk env.alive kl = Except.error ()) :
    restartStep mz kl env s =
      { state := s, trace := [Event.terminateCall], errored := true } := by
  unfold restartStep
  rw [if_pos hz, hk]
  rfl

theorem restartStep_kill_ok (mz kl : Nat) (env : CycleEnv) (s : SchedState)
    (hz : mz ≤ s.zeros)
    (hk : kill_winmeteo env.procExists env.killCmdOk env.alive kl = Except.ok ()) :
    restartStep mz kl env s =
      { state := { s with restarts := s.restarts + 1, lastRestart := env.now, zeros := 0 },
        trace := Event.terminateCall :: start_winmeteo_if_not_running env.runningAtStart,
        errored := false } := by
  unfold restartStep
  rw [if_pos hz, hk]
  rfl

theorem restartStep_watermark (mz kl : Nat) (env : CycleEnv) (s : SchedState) :
    (restartStep mz kl env s).state.watermark = s.watermark := by
  unfold restartStep
  split
  · cases hk : kill_winmeteo env.procExists env.killCmdOk env.alive kl with
    | error e => rfl
    | ok u => rfl
  · rfl

theorem restartStep_zeros_zero (mz kl : Nat) (env : CycleEnv) (s : SchedState)
    (h : s.zeros = 0) : (restartStep mz kl env s).state.zeros = 0 := by
  unfold restartStep
  split
  · cases hk : kill_winmeteo env.procExists env.killCmdOk env.alive kl with
    | error e => exact h
    | ok u => rfl
  · exact h

theorem cycle_read_raises (mz kl : Nat) (env : CycleEnv) (s : SchedState)
    (h : env.table = none) :
    cycle mz kl env s =
      { state := { s with iterations := s.iterations + 1 },
        trace := [Event.readCall], errored := true } := by
  unfold cycle
  rw [h]
  rfl

theorem cycle_read_error (mz kl : Nat) (env : CycleEnv) (s : SchedState)
    (tbl : List Row) (h : env.table = some tbl)
    (hr : read_new_rows_from_dbf tbl s.watermark = Except.error ()) :
    cycle mz kl env s =
      { state := { s with iterations := s.iterations + 1 },
        trace := [Event.readCall], errored := true } := by
  unfold cycle
  rw [h]
  show afterRead mz kl env s (read_new_rows_from_dbf tbl s.watermark) = _
  rw [hr]
  rfl

theorem cycle_empty (mz kl : Nat) (env : CycleEnv) (s : SchedState)
    (tbl : List Row) (h : env.table = some tbl)
    (hr : read_new_rows_from_dbf tbl s.watermark = Except.ok []) :
    cycle mz kl env s =
      prependEvents [Event.readCall]
        (restartStep mz kl env
          { s with iterations := s.iterations + 1, zeros := s.zeros + 1 }) := by
  unfold cycle
  rw [h]
  show afterRead mz kl env s (read_new_rows_from_dbf tbl s.watermark) = _
  rw [hr]
  rfl

theorem cycle_write_error (mz kl : Nat) (env : CycleEnv) (s : SchedState)
    (tbl rows : List Row) (h : env.table = some tbl)
    (hr : read_new_rows_from_dbf tbl s.watermark = Except.ok rows)
    (hne : rows ≠ [])
    (hw : write_to_influxdb env.writeOk rows = Except.error ()) :
    cycle mz kl env s =
      { state := { s with iterations := s.iterations + 1 },
        trace := [Event.readCall, Event.writeCall], errored := true } := by
  obtain ⟨a, l, rfl⟩ := List.exists_cons_of_ne_nil hne
  unfold cycle
  rw [h]
  show afterRead mz kl env s (read_new_rows_from_dbf tbl s.watermark) = _
  rw [hr]
  show afterWrite mz kl env s (a :: l) (write_to_influxdb env.writeOk (a :: l)) = _
  rw [hw]
  rfl

theorem cycle_write_ok (mz kl : Nat) (env : CycleEnv) (s : SchedState)
    (tbl rows : List Row) (pts : List Point) (h : env.table = some tbl)
    (hr : read_new_rows_from_dbf tbl s.watermark = Except.ok rows)
    (hne : rows ≠ [])
    (hw : write_to_influxdb env.writeOk rows = Except.ok pts) :
    cycle mz kl env s =
      prependEvents [Event.readCall, Event.writeCall]
        (restartStep mz kl env
          { s with iterations := s.iterations + 1,
                   watermark := batchMax rows, zeros := 0 }) := by
  obtain ⟨a, l, rfl⟩ := List.exists_cons_of_ne_nil hne
  unfold cycle
  rw [h]
  show afterRead mz kl env s (read_new_rows_from_dbf tbl s.watermark) = _
  rw [hr]
  show afterWrite mz kl env s (a :: l) (write_to_influxdb env.writeOk (a :: l)) = _
  rw [hw]
  rfl

theorem killPoll_error_of_alive (alive : Nat → Bool) (limit : Nat) :
    ∀ fuel k, k + fuel = limit + 2 → (∀ j, j ≤ limit + 1 → alive j = true) →
      killPoll alive limit fuel k = Except.error () := by
  intro fuel
  induction fuel with
  | zero => intro k hk hal; rfl
  | succ f ih =>
    intro k hk hal
    unfold killPoll
    rw [hal k (by omega)]
    by_cases hlim : limit < k
    · rw [if_neg (by simp), if_pos hlim]
    · rw [if_neg (by simp), if_neg hlim]
      exact ih (k + 1) (by omega) hal

theorem kill_winmeteo_timeout (alive : Nat → Bool) (limit : Nat)
    (hal : ∀ j, j ≤ limit + 1 → alive j = true) :
    kill_winmeteo true true alive limit = Except.error () := by
  show killPoll alive limit (limit + 2) 0 = Except.error ()
  exact killPoll_error_of_alive alive limit (limit + 2) 0 (by omega) hal

theorem connectPhase_events (attempts : List (Option (Option Nat))) :
    ∀ e ∈ (connectPhase attempts).1, e = Event.connectAttempt := by
  induction attempts with
  | nil => intro e he; cases he
  | cons a rest ih =>
    intro e he
    cases a with
    | some w =>
      simp only [connectPhase, List.mem_singleton] at he
      exact he
    | none =>
      simp only [connectPhase] at he
      rcases List.mem_cons.mp he with h1 | h2
      · exact h1
      · exact ih e h2

theorem pointFields_skip_unknown (k : String) (v : RawValue)
    (hk : mapColumn k = MapOutcome.unknown) :
    ∀ pre post, pointFields (pre ++ (k, v) :: post) = pointFields (pre ++ post) := by
  intro pre
  induction pre with
  | nil =>
    intro post
    show pointFields ((k, v) :: post) = pointFields post
    simp only [pointFields, hk]
  | cons hd tl ih =>
    intro post
    obtain ⟨ka, va⟩ := hd
    show pointFields ((ka, va) :: (tl ++ (k, v) :: post))
        = pointFields ((ka, va) :: (tl ++ post))
    simp only [pointFields]
    rw [ih post]

theorem mapColumn_unknown_of_not_known (k : String)
    (h1 : k ∉ system_columns) (h2 : k ∉ unused_columns)
    (h3 : k ∉ column_translation.map Prod.fst) :
    mapColumn k = MapOutcome.unknown := by
  simp only [column_translation, List.map_cons, List.map_nil, List.mem_cons,
    List.not_mem_nil, or_false, not_or] at h3
  obtain ⟨n1, n2, n3, n4, n5, n6, n7, n8, n9, n10, n11, n12, n13, n14, n15,
    n16, n17⟩ := h3
  simp [mapColumn, h1, h2, n1, n2, n3, n4, n5, n6, n7, n8, n9, n10, n11, n12,
    n13, n14, n15, n16, n17]

theorem mapColumn_known_not_unknown :
    ∀ k ∈ system_columns ++ unused_columns ++ column_translation.map Prod.fst,
      mapColumn k ≠ MapOutcome.unknown := by decide

theorem cycle_watermark_ge (mz kl : Nat) (env : CycleEnv) (s : SchedState) :
    s.watermark ≤ (cycle mz kl env s).state.watermark := by
  cases htbl : env.table with
  | none =>
    rw [cycle_read_raises mz kl env s htbl]
  | some tbl =>
    cases hr : read_new_rows_from_dbf tbl s.watermark with
    | error e =>
      cases e
      rw [cycle_read_error mz kl env s tbl htbl hr]
    | ok rows =>
      cases rows with
      | nil =>
        rw [cycle_empty mz kl env s tbl htbl hr]
        show s.watermark ≤ (restartStep mz kl env _).state.watermark
        rw [restartStep_watermark]
      | cons a l =>
        cases hw : write_to_influxdb env.writeOk (a :: l) with
        | error e =>
          cases e
          rw [cycle_write_error mz kl env s tbl (a :: l) htbl hr (by simp) hw]
        | ok pts =>
          rw [cycle_write_ok mz kl env s tbl (a :: l) pts htbl hr (by simp) hw]
          show s.watermark ≤ (restartStep mz kl env _).state.watermark
          rw [restartStep_watermark]
          obtain ⟨t, ht, hlt⟩ :=
            read_ok_mem tbl s.watermark (a :: l) hr a (List.mem_cons_self a l)
          have htm : t ∈ (a :: l).filterMap rowTime :=
            List.mem_filterMap.mpr ⟨a, List.mem_cons_self a l, ht⟩
          exact Nat.le_of_lt (Nat.lt_of_lt_of_le hlt
            (le_foldl_max ((a :: l).filterMap rowTime) 0 t htm))

theorem run_watermark_ge (mz kl : Nat) (envs : List CycleEnv) (s : SchedState) :
    s.watermark ≤ (run mz kl envs s).watermark := by
  induction envs generalizing s with
  | nil => exact Nat.le_refl _
  | cons e es ih =>
    exact Nat.le_trans (cycle_watermark_ge mz kl e s) (ih (cycle mz kl e s).state)

theorem cycle_write_raises_watermark (mz kl : Nat) (env : CycleEnv) (s : SchedState)
    (hw : env.writeOk = false) :
    (cycle mz kl env s).state.watermark = s.watermark := by
  cases htbl : env.table with
  | none =>
    rw [cycle_read_raises mz kl env s htbl]
  | some tbl =>
    cases hr : read_new_rows_from_dbf tbl s.watermark with
    | error e =>
      cases e
      rw [cycle_read_error mz kl env s tbl htbl hr]
    | ok rows =>
      cases rows with
      | nil =>
        rw [cycle_empty mz kl env s tbl htbl hr]
        show (restartStep mz kl env _).state.watermark = s.watermark
        rw [restartStep_watermark]
      | cons a l =>
        have hwe : write_to_influxdb env.writeOk (a :: l) = Except.error () := by
          rw [hw]
          exact write_fails_of_transport (a :: l)
        rw [cycle_write_error mz kl env s tbl (a :: l) htbl hr (by simp) hwe]

/-- C1: the in-memory watermark is monotonically non-decreasing for the life
of the process — over any sequence of cycles it is never rewound — and when
the batch write raises, the watermark still holds its previous value, since
advancement happens only after the write call returns successfully. -/
theorem C1_watermark_monotone :
    (∀ (mz kl : Nat) (envs : List CycleEnv) (s : SchedState),
        s.watermark ≤ (run mz kl envs s).watermark)
    ∧ (∀ (mz kl : Nat) (env : CycleEnv) (s : SchedState),
        env.writeOk = false →
        (cycle mz kl env s).state.watermark = s.watermark) :=
  ⟨run_watermark_ge, cycle_write_raises_watermark⟩

/-- Witness for C1 at a concrete run and a concrete raising write. -/
theorem C1_watermark_monotone_witness :
    state0.watermark ≤ (run max_zeros wait_for_kill [envWrite] state0).watermark
    ∧ (cycle max_zeros wait_for_kill envWriteFail state0).state.watermark
        = state0.watermark :=
  ⟨C1_watermark_monotone.1 max_zeros wait_for_kill [envWrite] state0,
   C1_watermark_monotone.2 max_zeros wait_for_kill envWriteFail state0 rfl⟩

/-- C2: after a successful write of a non-empty batch, the new watermark is
the batch maximum of the written rows — one of their parsed timestamps, and
an upper bound of all of them, invariant under any permutation of the batch,
so input order is irrelevant — and the consecutive-empty counter resets to
zero. -/
theorem C2_watermark_advancement (mz kl : Nat) (env : CycleEnv) (s : SchedState)
    (tbl rows : List Row)
    (h : env.table = some tbl)
    (hr : read_new_rows_from_dbf tbl s.watermark = Except.ok rows)
    (hne : rows ≠ [])
    (hw : exceptOk (write_to_influxdb env.writeOk rows) = true) :
    (cycle mz kl env s).state.watermark = batchMax rows
    ∧ batchMax rows ∈ rows.filterMap rowTime
    ∧ (∀ t ∈ rows.filterMap rowTime, t ≤ batchMax rows)
    ∧ (cycle mz kl env s).state.zeros = 0
    ∧ (∀ rows2 : List Row, List.Perm rows2 rows → batchMax rows2 = batchMax rows) := by
  obtain ⟨pts, hwo⟩ : ∃ pts, write_to_influxdb env.writeOk rows = Except.ok pts := by
    cases hwr : write_to_influxdb env.writeOk rows with
    | error e => rw [hwr] at hw; simp [exceptOk] at hw
    | ok pts => exact ⟨pts, rfl⟩
  have hc := cycle_write_ok mz kl env s tbl rows pts h hr hne hwo
  refine ⟨?_, ?_, ?_, ?_, ?_⟩
  · rw [hc]
    show (restartStep mz kl env _).state.watermark = batchMax rows
    rw [restartStep_watermark]
  · obtain ⟨a, l, rfl⟩ := List.exists_cons_of_ne_nil hne
    obtain ⟨t, ht, hlt⟩ :=
      read_ok_mem tbl s.watermark (a :: l) hr a (List.mem_cons_self a l)
    have htm : t ∈ (a :: l).filterMap rowTime :=
      List.mem_filterMap.mpr ⟨a, List.mem_cons_self a l, ht⟩
    have hle : t ≤ batchMax (a :: l) := le_foldl_max _ 0 t htm
    rcases List.mem_cons.mp (foldl_max_mem ((a :: l).filterMap rowTime) 0) with h0 | hm
    · exfalso
      have hle2 : t ≤ ((a :: l).filterMap rowTime).foldl max 0 := hle
      rw [h0] at hle2
      omega
    · exact hm
  · intro t htm
    exact le_foldl_max _ 0 t htm
  · rw [hc]
    show (restartStep mz kl env _).state.zeros = 0
    exact restartStep_zeros_zero mz kl env _ rfl
  · intro rows2 hperm
    exact foldl_max_perm (hperm.filterMap rowTime)

/-- Witness for C2 on the spec's own example: rows timestamped 10:00, 10:15,
10:05 in that file order advance the watermark to 10:15. -/
theorem C2_watermark_advancement_witness :
    ((cycle max_zeros wait_for_kill envWrite state0).state.watermark
        = batchMax tblOutOfOrder
      ∧ batchMax tblOutOfOrder ∈ tblOutOfOrder.filterMap rowTime
      ∧ (∀ t ∈ tblOutOfOrder.filterMap rowTime, t ≤ batchMax tblOutOfOrder)
      ∧ (cycle max_zeros wait_for_kill envWrite state0).state.zeros = 0
      ∧ (∀ rows2 : List Row, List.Perm rows2 tblOutOfOrder →
          batchMax rows2 = batchMax tblOutOfOrder))
    ∧ batchMax tblOutOfOrder = dtCode 2024 1 1 10 15 :=
  ⟨C2_watermark_advancement max_zeros wait_for_kill envWrite state0
      tblOutOfOrder tblOutOfOrder rfl (by rfl) (by decide) (by rfl), rfl⟩

/-- C3: the stall threshold is the floor division kill_timer / timer, which is
6 with the shipped configuration; an empty poll that leaves the counter below
the threshold performs no supervisor call, and the empty poll that reaches the
threshold invokes terminate and then ensureRunning exactly once each in that
order, increments the restart counter by one, records the restart timestamp
and resets the consecutive-empty counter to zero. -/
theorem C3_stall_threshold_restart :
    max_zeros = kill_timer / timer ∧ max_zeros = 6
    ∧ ∀ (mz kl : Nat) (env : CycleEnv) (s : SchedState) (tbl : List Row),
        env.table = some tbl →
        read_new_rows_from_dbf tbl s.watermark = Except.ok [] →
        ((s.zeros + 1 < mz →
            cycle mz kl env s =
              { state := { s with iterations := s.iterations + 1, zeros := s.zeros + 1 },
                trace := [Event.readCall], errored := false })
         ∧ (s.zeros + 1 = mz →
            kill_winmeteo env.procExists env.killCmdOk env.alive kl = Except.ok () →
            (cycle mz kl env s).state.restarts = s.restarts + 1
            ∧ (cycle mz kl env s).state.lastRestart = env.now
            ∧ (cycle mz kl env s).state.zeros = 0
            ∧ (cycle mz kl env s).trace
                = Event.readCall :: Event.terminateCall ::
                    start_winmeteo_if_not_running env.runningAtStart
            ∧ (cycle mz kl env s).trace.count Event.terminateCall = 1
            ∧ (cycle mz kl env s).trace.count Event.ensureCall = 1)) := by
  refine ⟨rfl, rfl, ?_⟩
  intro mz kl env s tbl h hr
  constructor
  · intro hlt
    rw [cycle_empty mz kl env s tbl h hr,
      restartStep_not_triggered mz kl env
        { s with iterations := s.iterations + 1, zeros := s.zeros + 1 } hlt]
    rfl
  · intro heq hk
    have hz : mz ≤ s.zeros + 1 := by omega
    rw [cycle_empty mz kl env s tbl h hr,
      restartStep_kill_ok mz kl env
        { s with iterations := s.iterations + 1, zeros := s.zeros + 1 } hz hk]
    refine ⟨rfl, rfl, rfl, rfl, ?_, ?_⟩
    · cases hrun : env.runningAtStart with
      | false =>
        show List.count Event.terminateCall
          [Event.readCall, Event.terminateCall, Event.ensureCall, Event.spawned] = 1
        decide
      | true =>
        show List.count Event.terminateCall
          [Event.readCall, Event.terminateCall, Event.ensureCall] = 1
        decide
    · cases hrun : env.runningAtStart with
      | false =>
        show List.count Event.ensureCall
          [Event.readCall, Event.terminateCall, Event.ensureCall, Event.spawned] = 1
        decide
      | true =>
        show List.count Event.ensureCall
          [Event.readCall, Event.terminateCall, Event.ensureCall] = 1
        decide

/-- Witness for C3 with the shipped configuration: an empty poll with counter
3 only counts up; the empty poll reaching 6 restarts once. -/
theorem C3_stall_threshold_restart_witness :
    cycle max_zeros wait_for_kill envEmptyKillOk stateZ3 =
      { state := { stateZ3 with
          iterations := stateZ3.iterations + 1,
          zeros := stateZ3.zeros + 1 },
        trace := [Event.readCall], errored := false }
    ∧ (cycle max_zeros wait_for_kill envEmptyKillOk stateZ5).state.restarts
        = stateZ5.restarts + 1
    ∧ (cycle max_zeros wait_for_kill envEmptyKillOk stateZ5).state.lastRestart
        = envEmptyKillOk.now
    ∧ (cycle max_zeros wait_for_kill envEmptyKillOk stateZ5).state.zeros = 0
    ∧ (cycle max_zeros wait_for_kill envEmptyKillOk stateZ5).trace
        = Event.readCall :: Event.terminateCall ::
            start_winmeteo_if_not_running envEmptyKillOk.runningAtStart := by
  have h3 := (C3_stall_threshold_restart.2.2 max_zeros wait_for_kill
    envEmptyKillOk stateZ3 [] rfl rfl).1 (by decide)
  have h5 := (C3_stall_threshold_restart.2.2 max_zeros wait_for_kill
    envEmptyKillOk stateZ5 [] rfl rfl).2 (by decide) rfl
  exact ⟨h3, h5.1, h5.2.1, h5.2.2.1, h5.2.2.2.1⟩

/-- C4 counterexample: a batch containing a record with one non-coercible
mapped field (TEP2M carrying None) makes the whole write raise — the record is
not emitted with its remaining fields and the batch write is aborted — while
the same batch without the bad record succeeds. -/
theorem C4_coercion_counterexample :
    pointFields rowBadField = Except.error ()
    ∧ write_to_influxdb true [row1000, rowBadField] = Except.error ()
    ∧ exceptOk (write_to_influxdb true [row1000]) = true :=
  ⟨rfl, rfl, rfl⟩

/-- C4 (amended): a failure to coerce one mapped field's raw value to floating
point raises out of the sink writer, aborting the whole batch write — no
record of the batch is emitted, regardless of the transport outcome — and the
raise is caught by the cycle's backoff wrapper with the watermark unchanged. -/
theorem C4_coercion_aborts_batch (ok : Bool) (data : List Row) (r : Row)
    (hmem : r ∈ data) (hbad : pointFields r = Except.error ()) :
    write_to_influxdb ok data = Except.error ()
    ∧ buildPoints data = Except.error ()
    ∧ ∀ (mz kl : Nat) (env : CycleEnv) (s : SchedState) (tbl : List Row),
        env.table = some tbl →
        env.writeOk = ok →
        read_new_rows_from_dbf tbl s.watermark = Except.ok data →
        (cycle mz kl env s).errored = true
        ∧ (cycle mz kl env s).state.watermark = s.watermark := by
  have hbp : ∀ d : List Row, r ∈ d → buildPoints d = Except.error () := by
    intro d
    induction d with
    | nil => intro hm; cases hm
    | cons a l ih =>
      intro hm
      rcases List.mem_cons.mp hm with hm1 | hm2
      · subst hm1
        show buildPoints (r :: l) = Except.error ()
        simp only [buildPoints, buildPoint, hbad]
      · cases hba : buildPoint a with
        | error e => cases e; simp only [buildPoints, hba]
        | ok p => simp only [buildPoints, hba, ih hm2]
  have hw2 : write_to_influxdb ok data = Except.error () := by
    unfold write_to_influxdb
    cases hb2 : buildPoints data with
    | error e => cases e; rfl
    | ok pts => rw [hbp data hmem] at hb2; cases hb2
  refine ⟨hw2, hbp data hmem, ?_⟩
  intro mz kl env s tbl henvt henvw hr
  have hwe : write_to_influxdb env.writeOk data = Except.error () := by
    rw [henvw]
    exact hw2
  rw [cycle_write_error mz kl env s tbl data henvt hr (List.ne_nil_of_mem hmem) hwe]
  exact ⟨rfl, rfl⟩

/-- Witness for the amended C4 at the concrete bad batch. -/
theorem C4_coercion_aborts_batch_witness :
    write_to_influxdb true [row1000, rowBadField] = Except.error ()
    ∧ buildPoints [row1000, rowBadField] = Except.error ()
    ∧ (cycle max_zeros wait_for_kill envBadBatch state0).errored = true
    ∧ (cycle max_zeros wait_for_kill envBadBatch state0).state.watermark
        = state0.watermark := by
  have h := C4_coercion_aborts_batch true [row1000, rowBadField] rowBadField
    (by decide) rfl
  have hc := h.2.2 max_zeros wait_for_kill envBadBatch state0
    [row1000, rowBadField] rfl rfl (by rfl)
  exact ⟨h.1, h.2.1, hc.1, hc.2⟩

/-- C5: the extractor returns exactly the rows of the file whose parsed local
timestamp is strictly greater than the watermark, in source-file order (the
filter of the table), and a second call on the same file with the same
watermark returns the same result set. -/
theorem C5_extractor_filter (tbl : List Row) (w : Nat) (rows : List Row)
    (h : read_new_rows_from_dbf tbl w = Except.ok rows) :
    rows = tbl.filter (newRowB w)
    ∧ (∀ r ∈ rows, ∃ t, rowTime r = some t ∧ w < t)
    ∧ ∀ rows2, read_new_rows_from_dbf tbl w = Except.ok rows2 → rows2 = rows := by
  refine ⟨read_ok_eq_filter tbl w rows h, read_ok_mem tbl w rows h, ?_⟩
  intro rows2 h2
  rw [h] at h2
  injection h2 with h3
  exact h3.symm

/-- Witness for C5 on a file with one stale row below a 09:30 watermark. -/
theorem C5_extractor_filter_witness :
    [row1000, row1015] = tblMixed.filter (newRowB (dtCode 2024 1 1 9 30))
    ∧ (∀ r ∈ [row1000, row1015], ∃ t, rowTime r = some t ∧ dtCode 2024 1 1 9 30 < t)
    ∧ ∀ rows2, read_new_rows_from_dbf tblMixed (dtCode 2024 1 1 9 30)
        = Except.ok rows2 → rows2 = [row1000, row1015] :=
  C5_extractor_filter tblMixed (dtCode 2024 1 1 9 30) [row1000, row1015] (by rfl)

/-- C6: when the monitored process never disappears within the kill wait,
terminate raises the timeout error after its once-per-second liveness polls;
in the cycle whose threshold fired, ensureRunning is then not invoked, the
restart counter is not incremented, and the error is caught by the cycle's
backoff wrapper. -/
theorem C6_termination_timeout :
    (∀ (alive : Nat → Bool) (limit : Nat),
        (∀ j, j ≤ limit + 1 → alive j = true) →
        kill_winmeteo true true alive limit = Except.error ())
    ∧ ∀ (mz kl : Nat) (env : CycleEnv) (s : SchedState) (tbl : List Row),
        env.table = some tbl →
        read_new_rows_from_dbf tbl s.watermark = Except.ok [] →
        mz ≤ s.zeros + 1 →
        kill_winmeteo env.procExists env.killCmdOk env.alive kl = Except.error () →
        (cycle mz kl env s).state.restarts = s.restarts
        ∧ (cycle mz kl env s).state.zeros = s.zeros + 1
        ∧ Event.ensureCall ∉ (cycle mz kl env s).trace
        ∧ (cycle mz kl env s).errored = true := by
  refine ⟨kill_winmeteo_timeout, ?_⟩
  intro mz kl env s tbl h hr hz hk
  rw [cycle_empty mz kl env s tbl h hr, restartStep_kill_error mz kl env _ hz hk]
  refine ⟨rfl, rfl, ?_, rfl⟩
  show Event.ensureCall ∉ [Event.readCall, Event.terminateCall]
  decide

/-- Witness for C6 with the shipped kill wait and a process that never dies. -/
theorem C6_termination_timeout_witness :
    kill_winmeteo true true (fun _ => true) wait_for_kill = Except.error ()
    ∧ (cycle max_zeros wait_for_kill envEmptyKillTimeout stateZ5).state.restarts
        = stateZ5.restarts
    ∧ (cycle max_zeros wait_for_kill envEmptyKillTimeout stateZ5).state.zeros
        = stateZ5.zeros + 1
    ∧ Event.ensureCall ∉ (cycle max_zeros wait_for_kill envEmptyKillTimeout stateZ5).trace
    ∧ (cycle max_zeros wait_for_kill envEmptyKillTimeout stateZ5).errored = true := by
  have h1 := C6_termination_timeout.1 (fun _ => true) wait_for_kill (fun j hj => rfl)
  have h2 := C6_termination_timeout.2 max_zeros wait_for_kill envEmptyKillTimeout
    stateZ5 [] rfl rfl (by decide) h1
  exact ⟨h1, h2.1, h2.2.1, h2.2.2.1, h2.2.2.2⟩

/-- C7: every reserved or unused column maps to Ignored; every column of the
fixed translation table maps to Mapped with its documented canonical name;
exactly the strings outside those tables map to Unknown; and an unknown
column is skipped without discarding the rest of its record. -/
theorem C7_field_mapper :
    (∀ k ∈ system_columns ++ unused_columns, mapColumn k = MapOutcome.ignored)
    ∧ (∀ p ∈ column_translation, mapColumn p.1 = MapOutcome.mapped p.2)
    ∧ (∀ k : String, mapColumn k = MapOutcome.unknown ↔
        k ∉ system_columns ++ unused_columns ++ column_translation.map Prod.fst)
    ∧ ∀ (pre post : List (String × RawValue)) (k : String) (v : RawValue),
        mapColumn k = MapOutcome.unknown →
        pointFields (pre ++ (k, v) :: post) = pointFields (pre ++ post) := by
  refine ⟨by decide, by decide, ?_, ?_⟩
  · intro k
    constructor
    · intro hu hk
      exact mapColumn_known_not_unknown k hk hu
    · intro hk
      simp only [List.mem_append, not_or] at hk
      exact mapColumn_unknown_of_not_known k hk.1.1 hk.1.2 hk.2
  · intro pre post k v hk
    exact pointFields_skip_unknown k v hk pre post

/-- Witness for C7 on concrete columns of each class and a record with an
unknown column. -/
theorem C7_field_mapper_witness :
    mapColumn ("DAT") = MapOutcome.ignored
    ∧ mapColumn ("PWD_ERR") = MapOutcome.ignored
    ∧ mapColumn ("VLVZD") = MapOutcome.mapped ("humi")
    ∧ mapColumn ("TEP2M") = MapOutcome.mapped ("temp")
    ∧ mapColumn ("XYZ") = MapOutcome.unknown
    ∧ pointFields ([("XYZ", RawValue.num 1), ("TEP2M", RawValue.num 5)])
        = pointFields ([("TEP2M", RawValue.num 5)]) := by
  refine ⟨C7_field_mapper.1 ("DAT") (by decide),
    C7_field_mapper.1 ("PWD_ERR") (by decide),
    C7_field_mapper.2.1 ("VLVZD", "humi") (by decide),
    C7_field_mapper.2.1 ("TEP2M", "temp") (by decide),
    (C7_field_mapper.2.2.1 ("XYZ")).mpr (by decide), ?_⟩
  exact C7_field_mapper.2.2.2 [] [("TEP2M", RawValue.num 5)] ("XYZ")
    (RawValue.num 1) ((C7_field_mapper.2.2.1 ("XYZ")).mpr (by decide))

/-- C8 counterexample: with the shipped threshold of six, a cycle whose
restart attempt times out leaves the consecutive-empty counter at six, so the
very next empty poll — a new run of only one empty poll, not six — already
performs another restart. -/
theorem C8_restart_retry_counterexample :
    (mainCycle envEmptyKillTimeout stateZ5).state.zeros = 6
    ∧ (mainCycle envEmptyKillTimeout stateZ5).state.restarts = 0
    ∧ (mainCycle envEmptyKillTimeout stateZ5).errored = true
    ∧ (mainCycle envEmptyKillOk
        (mainCycle envEmptyKillTimeout stateZ5).state).state.restarts = 1
    ∧ Event.terminateCall ∈ (mainCycle envEmptyKillOk
        (mainCycle envEmptyKillTimeout stateZ5).state).trace
    ∧ Event.ensureCall ∈ (mainCycle envEmptyKillOk
        (mainCycle envEmptyKillTimeout stateZ5).state).trace
    ∧ (1 : Nat) < max_zeros :=
  ⟨rfl, rfl, rfl, rfl, by decide, by decide, by decide⟩

/-- C8 (amended): a restart attempt that fails with a termination timeout
retains the consecutive-empty counter (it is not reset), leaving it at or
above the threshold, so the scheduler attempts the next restart already on the
very next empty poll rather than after a fresh threshold-long run of empty
polls. -/
theorem C8_restart_after_failed_attempt (mz kl : Nat) (env : CycleEnv)
    (s : SchedState) (tbl : List Row)
    (h : env.table = some tbl)
    (hr : read_new_rows_from_dbf tbl s.watermark = Except.ok [])
    (hz : mz ≤ s.zeros + 1) :
    (kill_winmeteo env.procExists env.killCmdOk env.alive kl = Except.error () →
      (cycle mz kl env s).state.zeros = s.zeros + 1
      ∧ (cycle mz kl env s).state.restarts = s.restarts
      ∧ mz ≤ (cycle mz kl env s).state.zeros)
    ∧ (kill_winmeteo env.procExists env.killCmdOk env.alive kl = Except.ok () →
      (cycle mz kl env s).state.restarts = s.restarts + 1
      ∧ (cycle mz kl env s).state.zeros = 0
      ∧ Event.terminateCall ∈ (cycle mz kl env s).trace) := by
  constructor
  · intro hk
    rw [cycle_empty mz kl env s tbl h hr, restartStep_kill_error mz kl env _ hz hk]
    exact ⟨rfl, rfl, hz⟩
  · intro hk
    rw [cycle_empty mz kl env s tbl h hr, restartStep_kill_ok mz kl env _ hz hk]
    exact ⟨rfl, rfl, List.mem_cons_of_mem _ (List.mem_cons_self _ _)⟩

/-- Witness for the amended C8: the failed attempt retains the counter at the
threshold, and the next empty poll restarts. -/
theorem C8_restart_after_failed_attempt_witness :
    ((cycle max_zeros wait_for_kill envEmptyKillTimeout stateZ5).state.zeros
        = stateZ5.zeros + 1
      ∧ (cycle max_zeros wait_for_kill envEmptyKillTimeout stateZ5).state.restarts
        = stateZ5.restarts
      ∧ max_zeros ≤ (cycle max_zeros wait_for_kill envEmptyKillTimeout stateZ5).state.zeros)
    ∧ ((cycle max_zeros wait_for_kill envEmptyKillOk stateZ5).state.restarts
        = stateZ5.restarts + 1
      ∧ (cycle max_zeros wait_for_kill envEmptyKillOk stateZ5).state.zeros = 0
      ∧ Event.terminateCall ∈ (cycle max_zeros wait_for_kill envEmptyKillOk stateZ5).trace) := by
  have h1 := (C8_restart_after_failed_attempt max_zeros wait_for_kill
    envEmptyKillTimeout stateZ5 [] rfl rfl (by decide)).1 (by rfl)
  have h2 := (C8_restart_after_failed_attempt max_zeros wait_for_kill
    envEmptyKillOk stateZ5 [] rfl rfl (by decide)).2 rfl
  exact ⟨h1, h2⟩

/-- C9: when the process exists but the kill command itself fails, terminate
returns normally without raising and without polling, so the threshold cycle
still proceeds: ensureRunning is called (spawning nothing, as the process is
still alive), the restart counter is incremented, the restart timestamp is
recorded, and the empty counter resets to zero, although nothing was actually
terminated or restarted. -/
theorem C9_kill_command_failure :
    (∀ (alive : Nat → Bool) (limit : Nat),
        kill_winmeteo true false alive limit = Except.ok ())
    ∧ ∀ (mz kl : Nat) (env : CycleEnv) (s : SchedState) (tbl : List Row),
        env.table = some tbl →
        read_new_rows_from_dbf tbl s.watermark = Except.ok [] →
        mz ≤ s.zeros + 1 →
        env.procExists = true → env.killCmdOk = false → env.runningAtStart = true →
        (cycle mz kl env s).state.restarts = s.restarts + 1
        ∧ (cycle mz kl env s).state.lastRestart = env.now
        ∧ (cycle mz kl env s).state.zeros = 0
        ∧ (cycle mz kl env s).trace
            = [Event.readCall, Event.terminateCall, Event.ensureCall]
        ∧ Event.spawned ∉ (cycle mz kl env s).trace := by
  refine ⟨fun alive limit => rfl, ?_⟩
  intro mz kl env s tbl h hr hz hpe hco hras
  have hk : kill_winmeteo env.procExists env.killCmdOk env.alive kl
      = Except.ok () := by
    rw [hpe, hco]
    rfl
  rw [cycle_empty mz kl env s tbl h hr, restartStep_kill_ok mz kl env _ hz hk]
  refine ⟨rfl, rfl, rfl, ?_, ?_⟩
  · rw [hras]
    rfl
  · rw [hras]
    show Event.spawned ∉ [Event.readCall, Event.terminateCall, Event.ensureCall]
    decide

/-- Witness for C9 at a concrete cycle with a failing kill command. -/
theorem C9_kill_command_failure_witness :
    kill_winmeteo true false (fun _ => false) 20 = Except.ok ()
    ∧ (cycle max_zeros wait_for_kill envEmptyCmdFail stateZ5).state.restarts
        = stateZ5.restarts + 1
    ∧ (cycle max_zeros wait_for_kill envEmptyCmdFail stateZ5).state.lastRestart
        = envEmptyCmdFail.now
    ∧ (cycle max_zeros wait_for_kill envEmptyCmdFail stateZ5).state.zeros = 0
    ∧ (cycle max_zeros wait_for_kill envEmptyCmdFail stateZ5).trace
        = [Event.readCall, Event.terminateCall, Event.ensureCall]
    ∧ Event.spawned ∉ (cycle max_zeros wait_for_kill envEmptyCmdFail stateZ5).trace := by
  have h1 := C9_kill_command_failure.1 (fun _ => false) 20
  have h2 := C9_kill_command_failure.2 max_zeros wait_for_kill envEmptyCmdFail
    stateZ5 [] rfl rfl (by decide) rfl rfl rfl
  exact ⟨h1, h2.1, h2.2.1, h2.2.2.1, h2.2.2.2.1, h2.2.2.2.2⟩

/-- C10: startup calls ensureRunning exactly once, before any connect attempt,
for every sequence of connect outcomes — including one where the sink is never
reachable — and when the process is absent it is spawned right there. -/
theorem C10_startup_ensures_running (running : Bool)
    (attempts : List (Option (Option Nat))) :
    (mainStartup running attempts).1.head? = some Event.ensureCall
    ∧ (mainStartup running attempts).1.count Event.ensureCall = 1
    ∧ (∀ e ∈ (connectPhase attempts).1, e = Event.connectAttempt)
    ∧ (running = false →
        (mainStartup running attempts).1.take 2 = [Event.ensureCall, Event.spawned]) := by
  have hc : (connectPhase attempts).1.count Event.ensureCall = 0 := by
    rw [List.count_eq_zero]
    intro hmem
    exact absurd (connectPhase_events attempts Event.ensureCall hmem) (by decide)
  refine ⟨?_, ?_, connectPhase_events attempts, ?_⟩
  · cases running <;> rfl
  · show (start_winmeteo_if_not_running running
        ++ (connectPhase attempts).1).count Event.ensureCall = 1
    rw [List.count_append, hc]
    cases running <;> rfl
  · intro hrun
    subst hrun
    rfl

/-- Witness for C10 with an absent process and a never-reachable sink. -/
theorem C10_startup_ensures_running_witness :
    (mainStartup false [none, none]).1.head? = some Event.ensureCall
    ∧ (mainStartup false [none, none]).1.count Event.ensureCall = 1
    ∧ (∀ e ∈ (connectPhase [none, none]).1, e = Event.connectAttempt)
    ∧ (mainStartup false [none, none]).1.take 2
        = [Event.ensureCall, Event.spawned] := by
  have h := C10_startup_ensures_running false [none, none]
  exact ⟨h.1, h.2.1, h.2.2.1, h.2.2.2 rfl⟩

end Meteoflux
